import Mathlib

/-!
Verification development for the rodent-ai-vision-box repository.

This file shallowly embeds the alert coordination core, the notification
dispatcher, the persistence layer, the detection wrapper and the archived
ONNX decoder/NMS test-script of the repository, and proves or refutes the
behavioural claims made about them.

Modelling conventions:
* Wall-clock times are rationals measured in minutes (`datetime.min` is
  normalised to `datetime_min = 0`, all scenario times are taken at or
  after it); `timedelta(minutes=m)` therefore compares as `m`.
* Python exceptions are made explicit through `PyResult`: a call either
  returns `ok v` or raises `exn msg`.
* The ghost counters `mark_count` and `db_update_count` count how many
  times `mark_alert_sent` and the `database.update_alert_status` call site
  are reached; they instrument the embedding without changing behaviour.
-/

/-- Result of a Python call: a normal return value or a raised exception. -/
inductive PyResult (α : Type) where
  | ok (val : α)
  | exn (msg : String)
deriving DecidableEq

/-- Embeds `Detection` from `src/src/detection_engine.py` (lines 11-26):
`class_name`, `confidence`, `bbox = (x1, y1, x2, y2)` and `timestamp`;
the derived `datetime` attribute is `fromtimestamp(timestamp)` and carries
no extra information, so it is not stored separately here. -/
structure Detection where
  class_name : String
  confidence : ℚ
  bbox : ℤ × ℤ × ℤ × ℤ
  timestamp : ℚ
deriving DecidableEq

/-- The attribute names assigned in `Detection.__init__`
(`src/src/detection_engine.py` lines 12-17).  Note that `id` is not among
them: `Detection` objects have no `id` attribute. -/
def detection_attr_names : List String :=
  ["class_name", "confidence", "bbox", "timestamp", "datetime"]

/-- Python `hasattr` on a `Detection` instance, read off the attribute
table of `Detection.__init__`. -/
def detection_hasattr (name : String) : Bool :=
  detection_attr_names.contains name

/-- Embeds `AlertEvent` from `src/src/alert_engine.py` (lines 11-17):
the triggering detection, the image path, creation time and the mutable
`alert_sent` / `alert_sent_at` pair. -/
structure AlertEventRec where
  detection : Detection
  image_path : String
  created_at : ℚ
  alert_sent : Bool
  alert_sent_at : Option ℚ
deriving DecidableEq

/-- Embeds the SQLAlchemy `DetectionRecord` model of `src/src/database.py`
(lines 11-26); `detection_datetime` duplicates `timestamp` (it is
`fromtimestamp` of it). -/
structure DetectionRecord where
  id : ℕ
  class_name : String
  confidence : ℚ
  bbox_x1 : ℤ
  bbox_y1 : ℤ
  bbox_x2 : ℤ
  bbox_y2 : ℤ
  timestamp : ℚ
  detection_datetime : ℚ
  image_path : String
  alert_sent : Bool
  alert_sent_at : Option ℚ
  created_at : ℚ
deriving DecidableEq

/-- Normalised value of Python's `datetime.min`, the default value of the
`defaultdict(lambda: datetime.min)` cooldown map in
`src/src/alert_engine.py` line 35. -/
def datetime_min : ℚ := 0

/-- Combined mutable state of `RodentDetectionSystem` (`src/src/main.py`),
its `AlertLogicEngine` (`src/src/alert_engine.py`) and its
`DatabaseManager` (`src/src/database.py`).  `events` stores every
`AlertEvent` ever constructed, identified by its creation index, so that
Python's aliasing of mutable event objects is captured; `mark_count` and
`db_update_count` are ghost call counters. -/
structure SysState where
  cooldown_minutes : ℚ
  last_alert_times : String → ℚ
  pending_alerts : List ℕ
  alert_history : List ℕ
  events : List AlertEventRec
  db : List DetectionRecord
  mark_count : ℕ → ℕ
  db_update_count : ℕ

/-- Embeds `AlertLogicEngine.should_send_alert` (`src/src/alert_engine.py`
lines 39-50): true exactly when `now - last_alert_times[class_name]` is at
least `timedelta(minutes=cooldown_minutes)`. -/
def should_send_alert (st : SysState) (d : Detection) (now : ℚ) : Bool :=
  decide (st.cooldown_minutes ≤ now - st.last_alert_times d.class_name)

/-- Embeds `AlertLogicEngine.process_detection` (`src/src/alert_engine.py`
lines 56-63): if the cooldown has passed, construct an `AlertEvent`, put it
on the pending queue, update the last-alert time for the detection's class
(`update_last_alert_time`, lines 52-54) and return the event; otherwise
return `None` and leave the state untouched.  The returned `ℕ` is the index
of the freshly constructed event in `events`. -/
def process_detection (st : SysState) (d : Detection) (image_path : String) (now : ℚ) :
    Option ℕ × SysState :=
  if should_send_alert st d now then
    (some st.events.length,
      { st with
        events := st.events ++ [⟨d, image_path, now, false, none⟩]
        pending_alerts := st.pending_alerts ++ [st.events.length]
        last_alert_times := fun c =>
          if c = d.class_name then now else st.last_alert_times c })
  else (none, st)

/-- Updates the event at index `i` exactly as
`AlertLogicEngine.mark_alert_sent` mutates the aliased `AlertEvent`. -/
def set_event_sent : List AlertEventRec → ℕ → ℚ → List AlertEventRec
  | [], _, _ => []
  | e :: t, 0, now => { e with alert_sent := true, alert_sent_at := some now } :: t
  | e :: t, n + 1, now => e :: set_event_sent t n now

/-- Embeds `AlertLogicEngine.mark_alert_sent` (`src/src/alert_engine.py`
lines 71-75): sets `alert_sent = True`, sets `alert_sent_at` to the
current time, and appends the event to `alert_history`.  The ghost counter
`mark_count i` records the invocation. -/
def mark_alert_sent (st : SysState) (i : ℕ) (now : ℚ) : SysState :=
  { st with
    events := set_event_sent st.events i now
    alert_history := st.alert_history ++ [i]
    mark_count := fun j => if j = i then st.mark_count j + 1 else st.mark_count j }

/-- Embeds `AlertLogicEngine.get_pending_alert` (`src/src/alert_engine.py`
lines 65-69): pop the head of the pending queue, or return `None` on
timeout when the queue is empty. -/
def get_pending_alert (st : SysState) : Option ℕ × SysState :=
  match st.pending_alerts with
  | [] => (none, st)
  | i :: rest => (some i, { st with pending_alerts := rest })

/-- Outcome of one notification channel attempt, as observed by
`NotificationService.send_alert`: the channel's `send_alert` coroutine
either returns a boolean or raises. -/
def channel_ok : PyResult Bool → Bool
  | .ok b => b
  | .exn _ => false

/-- Embeds `NotificationService.send_alert` (`src/src/notification_service.py`
lines 288-300): iterate over the enabled channels, invoke each one inside
`try/except`, record `False` for a channel that raises, and return the full
per-channel result map.  A channel is modelled by its name paired with the
outcome of its attempt. -/
def service_send_alert (channels : List (String × PyResult Bool)) : List (String × Bool) :=
  channels.map fun c => (c.1, channel_ok c.2)

/-- Embeds `DatabaseManager.save_detection` (`src/src/database.py` lines
50-75): append a fresh `DetectionRecord` built from the detection; `id` is
the autoincrement primary key. -/
def save_detection (db : List DetectionRecord) (d : Detection) (image_path : String)
    (alert_sent : Bool) (now : ℚ) : List DetectionRecord :=
  db ++ [{ id := db.length + 1
           class_name := d.class_name
           confidence := d.confidence
           bbox_x1 := d.bbox.1
           bbox_y1 := d.bbox.2.1
           bbox_x2 := d.bbox.2.2.1
           bbox_y2 := d.bbox.2.2.2
           timestamp := d.timestamp
           detection_datetime := d.timestamp
           image_path := image_path
           alert_sent := alert_sent
           alert_sent_at := if alert_sent then some now else none
           created_at := now }]

/-- Embeds `DatabaseManager.update_alert_status` (`src/src/database.py`
lines 77-91): find the first record with the given id and set
`alert_sent = True`, `alert_sent_at = datetime.now()`, unconditionally; if
no record matches, do nothing. -/
def update_alert_status : List DetectionRecord → ℕ → ℚ → List DetectionRecord
  | [], _, _ => []
  | r :: t, i, now =>
      if r.id = i then { r with alert_sent := true, alert_sent_at := some now } :: t
      else r :: update_alert_status t i now

/-- Embeds `RodentDetectionSystem.send_alert` (`src/src/main.py` lines
59-70): dispatch through the notification service; if any channel
succeeded, call `mark_alert_sent` and then evaluate
`alert_event.detection.id`.  Since `Detection` has no `id` attribute
(`detection_hasattr "id" = false`), that access raises `AttributeError`
and the `database.update_alert_status` call is never reached; the dead
branch passes the placeholder id `0`. -/
def main_send_alert (st : SysState) (i : ℕ) (channels : List (String × PyResult Bool))
    (now : ℚ) : SysState × PyResult Unit :=
  let results := service_send_alert channels
  if results.any (fun r => r.2) then
    let st1 := mark_alert_sent st i now
    if detection_hasattr "id" then
      ({ st1 with
          db := update_alert_status st1.db 0 now
          db_update_count := st1.db_update_count + 1 }, .ok ())
    else
      (st1, .exn "AttributeError: Detection object has no attribute id")
  else (st, .ok ())

/-- Embeds the per-detection body of `RodentDetectionSystem.process_frame`
(`src/src/main.py` lines 45-57): persist the detection, run it through the
alert engine, and if an `AlertEvent` was returned, dispatch it at once via
`send_alert`. -/
def process_frame_detection (st : SysState) (d : Detection) (image_path : String)
    (channels : List (String × PyResult Bool)) (now : ℚ) : SysState × PyResult Unit :=
  let st0 := { st with db := save_detection st.db d image_path false now }
  match process_detection st0 d image_path now with
  | (some i, st1) => main_send_alert st1 i channels now
  | (none, st1) => (st1, .ok ())

/-- Embeds one iteration of `RodentDetectionSystem.alert_processor`
(`src/src/main.py` lines 72-78): take the next pending alert off the queue
and, if there is one, dispatch it via `send_alert`. -/
def alert_processor_step (st : SysState) (channels : List (String × PyResult Bool))
    (now : ℚ) : SysState × PyResult Unit :=
  match get_pending_alert st with
  | (some i, st1) => main_send_alert st1 i channels now
  | (none, st1) => (st1, .ok ())

/-- The class-id to class-name map of `RodentDetectionEngine.detect`
(`src/src/detection_engine.py` lines 109-112). -/
def yolo_class_names (class_id : ℤ) : String :=
  if class_id = 0 then "norway_rat" else if class_id = 1 then "roof_rat" else "unknown_rat"

/-- Python `int()` on an exact rational: truncation toward zero. -/
def pytruncQ (q : ℚ) : ℤ := if 0 ≤ q then ⌊q⌋ else ⌈q⌉

/-- One box of the YOLO inference result consumed by
`RodentDetectionEngine.detect`: class id, confidence and `xyxy`
coordinates. -/
structure YoloBox where
  cls : ℤ
  conf : ℚ
  x1 : ℚ
  y1 : ℚ
  x2 : ℚ
  y2 : ℚ
deriving DecidableEq

/-- Embeds `RodentDetectionEngine.detect` (`src/src/detection_engine.py`
lines 97-139).  The model inference (and any downstream processing of a
malformed output tensor) is modelled by its outcome `model_result`; the
whole body runs inside `try/except Exception`, which logs the failure and
returns the empty list, so an inference-time exception never escapes. -/
def detect (model_result : PyResult (List YoloBox)) (timestamp : ℚ) :
    PyResult (List Detection) :=
  match model_result with
  | .ok boxes =>
      .ok (boxes.map fun b =>
        { class_name := yolo_class_names b.cls
          confidence := b.conf
          bbox := (pytruncQ b.x1, pytruncQ b.y1, pytruncQ b.x2, pytruncQ b.y2)
          timestamp := timestamp })
  | .exn _ => .ok []

/-!
Embedding of the archived ONNX decoder test script
`src/archive/test_scripts/corrected_video_test.py`.  Its tensor values are
floats; they are modelled as real numbers, and numpy's `sigmoid` as the
exact logistic function (with the script's clip to `[-500, 500]`), so the
decoder definitions below are noncomputable.
-/

/-- Embeds `sigmoid` (`corrected_video_test.py` lines 14-16):
`1 / (1 + exp(-clip(x, -500, 500)))`. -/
noncomputable def sigmoid (x : ℝ) : ℝ :=
  1 / (1 + Real.exp (-(max (-500) (min x 500))))

/-- One decoded detection dictionary of the test script (keys `class`,
`confidence`, `obj_conf`, `class_prob`, `bbox`). -/
structure PyDetection where
  cls : String
  confidence : ℝ
  obj_conf : ℝ
  class_prob : ℝ
  bbox : ℤ × ℤ × ℤ × ℤ

/-- Area `(x_max - x_min) * (y_max - y_min)` of a box given as
`(x_min, y_min, x_max, y_max)`. -/
def box_area (b : ℤ × ℤ × ℤ × ℤ) : ℤ := (b.2.2.1 - b.1) * (b.2.2.2 - b.2.1)

/-- Left edge of the intersection of two boxes. -/
def inter_xmin (b1 b2 : ℤ × ℤ × ℤ × ℤ) : ℤ := max b1.1 b2.1

/-- Bottom edge of the intersection of two boxes. -/
def inter_ymin (b1 b2 : ℤ × ℤ × ℤ × ℤ) : ℤ := max b1.2.1 b2.2.1

/-- Right edge of the intersection of two boxes. -/
def inter_xmax (b1 b2 : ℤ × ℤ × ℤ × ℤ) : ℤ := min b1.2.2.1 b2.2.2.1

/-- Top edge of the intersection of two boxes. -/
def inter_ymax (b1 b2 : ℤ × ℤ × ℤ × ℤ) : ℤ := min b1.2.2.2 b2.2.2.2

/-- Intersection area of two boxes (meaningful when they overlap). -/
def inter_area (b1 b2 : ℤ × ℤ × ℤ × ℤ) : ℤ :=
  (inter_xmax b1 b2 - inter_xmin b1 b2) * (inter_ymax b1 b2 - inter_ymin b1 b2)

/-- Union area `area(b1) + area(b2) - inter_area` of two boxes. -/
def union_area (b1 b2 : ℤ × ℤ × ℤ × ℤ) : ℤ :=
  box_area b1 + box_area b2 - inter_area b1 b2

/-- Embeds `CorrectedRodentTester.calculate_iou` (`corrected_video_test.py`
lines 154-172): zero when the boxes do not overlap, otherwise intersection
over union if the union area is positive, else zero.  Box coordinates are
integers (the script clamps and truncates them before NMS), so the ratio is
an exact rational. -/
def calculate_iou (b1 b2 : ℤ × ℤ × ℤ × ℤ) : ℚ :=
  if inter_xmax b1 b2 ≤ inter_xmin b1 b2 ∨ inter_ymax b1 b2 ≤ inter_ymin b1 b2 then 0
  else if 0 < union_area b1 b2 then (inter_area b1 b2 : ℚ) / (union_area b1 b2 : ℚ)
  else 0

/-- Stable descending insertion by `confidence`, modelling Python's stable
`sorted(detections, key=confidence, reverse=True)`. -/
noncomputable def insert_by_conf (d : PyDetection) : List PyDetection → List PyDetection
  | [] => [d]
  | e :: t => if e.confidence ≤ d.confidence then d :: e :: t else e :: insert_by_conf d t

/-- Sorts detections by confidence, descending and stable. -/
noncomputable def sort_by_conf : List PyDetection → List PyDetection
  | [] => []
  | d :: t => insert_by_conf d (sort_by_conf t)

/-- The greedy suppression loop of `CorrectedRodentTester.apply_nms`
(`corrected_video_test.py` lines 143-152): pop the head, keep it, drop
every remaining detection whose IoU with it reaches `iou_threshold`,
repeat. -/
noncomputable def nms_loop (iou_threshold : ℚ) : List PyDetection → List PyDetection
  | [] => []
  | c :: rest =>
      c :: nms_loop iou_threshold
        (rest.filter fun d => decide (calculate_iou c.bbox d.bbox < iou_threshold))
termination_by l => l.length
decreasing_by
  simp only [List.length_cons]
  exact Nat.lt_succ_of_le (List.length_filter_le _ _)

/-- Embeds `CorrectedRodentTester.apply_nms` (`corrected_video_test.py`
lines 135-152): sort by confidence descending, then run the greedy
suppression loop. -/
noncomputable def apply_nms (iou_threshold : ℚ) (dets : List PyDetection) : List PyDetection :=
  nms_loop iou_threshold (sort_by_conf dets)

/-- One anchor column of the raw output tensor: box centre coordinates,
width, height, objectness and the class-score channels. -/
structure RawAnchor where
  x : ℝ
  y : ℝ
  w : ℝ
  h : ℝ
  obj : ℝ
  scores : List ℝ

/-- The raw output tensor consumed by `decode_output`: `nc` is the number
of class-score channels (`class_scores_raw.shape[0]`), `anchors` its
per-anchor columns. -/
structure RawOutput where
  nc : ℕ
  anchors : List RawAnchor

/-- Embeds `np.argmax` on a vector: index of the first maximal entry
(index 0 on the empty list). -/
noncomputable def np_argmax : List ℝ → ℕ
  | [] => 0
  | [_] => 0
  | a :: b :: t =>
      let j := np_argmax (b :: t)
      if (b :: t).getD j 0 > a then j + 1 else 0

/-- Python `int()` on a float: truncation toward zero. -/
noncomputable def pytrunc (x : ℝ) : ℤ := if 0 ≤ x then ⌊x⌋ else ⌈x⌉

/-- The clamp `max(0, min(v, 640))` of `decode_output` lines 106-109. -/
def clamp640 (v : ℤ) : ℤ := max 0 (min v 640)

/-- The rescaling `int(v * orig / 640)` of `decode_output` lines 112-116
(exact rational division; the float round-off cannot move the truncation
for frame sizes representable in double precision). -/
def scale_coord (v orig : ℤ) : ℤ := pytruncQ ((v * orig : ℚ) / 640)

/-- The activated class-score column of one anchor (`decode_output` lines
57-67): with a single class-score channel the script stacks
`[1 - sigmoid(s), sigmoid(s)]`, otherwise it applies sigmoid to each
channel. -/
noncomputable def class_scores_col (nc : ℕ) (a : RawAnchor) : List ℝ :=
  if nc = 1 then [1 - sigmoid (a.scores.getD 0 0), sigmoid (a.scores.getD 0 0)]
  else a.scores.map sigmoid

/-- Number of rows of `class_scores` after the optional stacking
(`class_scores.shape[0]` as read inside the per-anchor loop). -/
def stacked_nc (nc : ℕ) : ℕ := if nc = 1 then 2 else nc

/-- The class-name selection of `decode_output` line 119:
`class_names[class_id]` when in range, else `"rodent_<id>"`. -/
def class_name_of (class_names : List String) (class_id : ℕ) : String :=
  if class_id < class_names.length then class_names.getD class_id ""
  else "rodent_" ++ toString class_id

/-- The class-index selection of the per-anchor loop (`decode_output`
lines 79-87): the `class_scores.shape[0] == 1` branch at lines 79-82 is
kept even though the stacking at line 65 makes it unreachable, so in
practice the argmax branch is always taken. -/
noncomputable def selected_class_id (nc : ℕ) (a : RawAnchor) : ℕ :=
  if stacked_nc nc = 1 then 0 else np_argmax (class_scores_col nc a)

/-- The class probability the loop reads at the selected index. -/
noncomputable def selected_class_prob (nc : ℕ) (a : RawAnchor) : ℝ :=
  (class_scores_col nc a).getD (selected_class_id nc a) 0

/-- The body of the per-anchor loop of `decode_output` (lines 74-127) for
one anchor that already passed the objectness prefilter: pick the class
(the `class_scores.shape[0] == 1` branch at lines 79-82 is kept even
though the stacking at line 65 makes it unreachable), combine the
confidences, refilter, convert, clamp and rescale the box, and drop
degenerate boxes. -/
noncomputable def anchor_detection (conf_threshold : ℝ) (class_names : List String)
    (nc : ℕ) (w_orig h_orig : ℤ) (a : RawAnchor) : Option PyDetection :=
  let obj := sigmoid a.obj
  let class_id : ℕ := selected_class_id nc a
  let class_prob := selected_class_prob nc a
  let confidence := obj * class_prob
  if conf_threshold < confidence then
    let x1 := clamp640 (pytrunc (a.x - a.w / 2))
    let y1 := clamp640 (pytrunc (a.y - a.h / 2))
    let x2 := clamp640 (pytrunc (a.x + a.w / 2))
    let y2 := clamp640 (pytrunc (a.y + a.h / 2))
    let x1s := scale_coord x1 w_orig
    let y1s := scale_coord y1 h_orig
    let x2s := scale_coord x2 w_orig
    let y2s := scale_coord y2 h_orig
    if x1s < x2s ∧ y1s < y2s then
      some { cls := class_name_of class_names class_id
             confidence := confidence
             obj_conf := obj
             class_prob := class_prob
             bbox := (x1s, y1s, x2s, y2s) }
    else none
  else none

/-- Embeds `CorrectedRodentTester.decode_output` (`corrected_video_test.py`
lines 47-133): prefilter anchors by activated objectness
(`np.where(obj_conf > conf_threshold)`), decode each surviving anchor, and
apply NMS when more than one detection remains. -/
noncomputable def decode_output (conf_threshold : ℝ) (iou_threshold : ℚ)
    (class_names : List String) (out : RawOutput) (w_orig h_orig : ℤ) : List PyDetection :=
  let valid := out.anchors.filter fun a => decide (conf_threshold < sigmoid a.obj)
  let dets := valid.filterMap (anchor_detection conf_threshold class_names out.nc w_orig h_orig)
  if 1 < dets.length then apply_nms iou_threshold dets else dets

/-! Concrete states, detections and tensors used in the witnesses and
counterexamples below. -/

/-- Initial system state built by `RodentDetectionSystem.__init__`: the
cooldown map is `defaultdict(lambda: datetime.min)`, every queue, history
and table is empty, and the default `alerts.cooldown_minutes` is 10. -/
def init_state : SysState :=
  { cooldown_minutes := 10
    last_alert_times := fun _ => datetime_min
    pending_alerts := []
    alert_history := []
    events := []
    db := []
    mark_count := fun _ => 0
    db_update_count := 0 }

/-- A concrete detection used as the C7 failing input. -/
def c7_detection : Detection :=
  { class_name := "norway_rat", confidence := 9/10, bbox := (0, 0, 10, 10), timestamp := 100 }

/-- A freshly saved record whose alert has not been sent yet. -/
def c8_unsent_record : DetectionRecord :=
  { id := 1, class_name := "norway_rat", confidence := 9/10, bbox_x1 := 0, bbox_y1 := 0,
    bbox_x2 := 10, bbox_y2 := 10, timestamp := 50, detection_datetime := 50,
    image_path := "img.jpg", alert_sent := false, alert_sent_at := none, created_at := 50 }

/-- A record whose alert has already been marked sent at time 60. -/
def c8_record : DetectionRecord :=
  { id := 1, class_name := "norway_rat", confidence := 9/10, bbox_x1 := 0, bbox_y1 := 0,
    bbox_x2 := 10, bbox_y2 := 10, timestamp := 50, detection_datetime := 50,
    image_path := "img.jpg", alert_sent := true, alert_sent_at := some 60, created_at := 50 }

/-- A high-confidence detection at the top-left of the frame. -/
noncomputable def c3_det1 : PyDetection :=
  { cls := "norway_rat", confidence := 9/10, obj_conf := 9/10, class_prob := 1,
    bbox := (0, 0, 10, 10) }

/-- A lower-confidence detection far from the first one. -/
noncomputable def c3_det2 : PyDetection :=
  { cls := "roof_rat", confidence := 4/5, obj_conf := 4/5, class_prob := 1,
    bbox := (100, 100, 110, 110) }

/-- The C5 scenario anchor: centre (320, 320), size 100x100, objectness
0.9 (the spec treats this value as already post-sigmoid) and class scores
[0.8, 0.1]. -/
noncomputable def scenario_anchor : RawAnchor :=
  { x := 320, y := 320, w := 100, h := 100, obj := 9/10, scores := [4/5, 1/10] }

/-- The C5 scenario tensor: a single anchor with two class-score
channels. -/
noncomputable def scenario_out : RawOutput := { nc := 2, anchors := [scenario_anchor] }

/-- The detection the decoder actually produces on the C5 scenario: class
index 0, but confidence `sigmoid(0.9) * sigmoid(0.8)` because the script
re-applies sigmoid unconditionally. -/
noncomputable def scenario_det : PyDetection :=
  { cls := "norway_rat", confidence := sigmoid (9/10) * sigmoid (4/5),
    obj_conf := sigmoid (9/10), class_prob := sigmoid (4/5), bbox := (270, 270, 370, 370) }

/-- The C6 binary-output anchor: one class-score channel with raw score
-1 (activated value below one half) and raw objectness 2. -/
noncomputable def binary_anchor : RawAnchor :=
  { x := 320, y := 320, w := 100, h := 100, obj := 2, scores := [-1] }

/-- The C6 binary-output tensor: a single anchor, a single class-score
channel. -/
noncomputable def binary_out : RawOutput := { nc := 1, anchors := [binary_anchor] }

/-- The detection the decoder produces on the C6 binary tensor: the
negative class (index 0), with confidence `sigmoid(2) * (1 - sigmoid(-1))`. -/
noncomputable def binary_det : PyDetection :=
  { cls := "norway_rat", confidence := sigmoid 2 * (1 - sigmoid (-1)),
    obj_conf := sigmoid 2, class_prob := 1 - sigmoid (-1), bbox := (270, 270, 370, 370) }

/-! Helper lemmas: the dead `id` attribute, NMS membership and pairwise
suppression, analytic facts about the logistic activation, and concrete
evaluations of the decoder. -/

/-- The `Detection` class has no `id` attribute. -/
theorem detection_hasattr_id : detection_hasattr "id" = false := by decide

/-- Everything produced by the descending insertion is the inserted
element or an element of the original list. -/
theorem mem_insert_by_conf {x d : PyDetection} {l : List PyDetection}
    (h : x ∈ insert_by_conf d l) : x = d ∨ x ∈ l := by
  induction l with
  | nil =>
      simp only [insert_by_conf, List.mem_singleton] at h
      exact Or.inl h
  | cons e t ih =>
      rw [insert_by_conf] at h
      by_cases hc : e.confidence ≤ d.confidence
      · rw [if_pos hc] at h
        exact List.mem_cons.mp h
      · rw [if_neg hc] at h
        rcases List.mem_cons.mp h with h | h
        · exact Or.inr (h ▸ List.mem_cons_self _ _)
        · rcases ih h with h | h
          · exact Or.inl h
          · exact Or.inr (List.mem_cons_of_mem _ h)

/-- The confidence sort does not introduce new detections. -/
theorem mem_sort_by_conf {x : PyDetection} {l : List PyDetection}
    (h : x ∈ sort_by_conf l) : x ∈ l := by
  induction l with
  | nil => simp [sort_by_conf] at h
  | cons d t ih =>
      rw [sort_by_conf] at h
      rcases mem_insert_by_conf h with h | h
      · exact h ▸ List.mem_cons_self _ _
      · exact List.mem_cons_of_mem _ (ih h)

/-- The greedy suppression loop only keeps elements of its input. -/
theorem mem_nms_loop (thr : ℚ) :
    ∀ (n : ℕ) (l : List PyDetection), l.length ≤ n → ∀ x ∈ nms_loop thr l, x ∈ l := by
  intro n
  induction n with
  | zero =>
      intro l hl x hx
      have hnil : l = [] := List.length_eq_zero.mp (Nat.le_zero.mp hl)
      subst hnil
      simp [nms_loop] at hx
  | succ n ih =>
      intro l hl x hx
      cases l with
      | nil => simp [nms_loop] at hx
      | cons c rest =>
          simp only [nms_loop] at hx
          rcases List.mem_cons.mp hx with h | h
          · exact h ▸ List.mem_cons_self _ _
          · have hlen : (rest.filter fun d =>
                decide (calculate_iou c.bbox d.bbox < thr)).length ≤ n :=
              le_trans (List.length_filter_le _ _)
                (Nat.succ_le_succ_iff.mp (by simpa using hl))
            exact List.mem_cons_of_mem _ (List.mem_of_mem_filter (ih _ hlen x h))

/-- Every pair of detections kept by the greedy suppression loop, in kept
order, has IoU strictly below the threshold. -/
theorem nms_loop_pairwise (thr : ℚ) :
    ∀ (n : ℕ) (l : List PyDetection), l.length ≤ n →
      (nms_loop thr l).Pairwise (fun a b => calculate_iou a.bbox b.bbox < thr) := by
  intro n
  induction n with
  | zero =>
      intro l hl
      have hnil : l = [] := List.length_eq_zero.mp (Nat.le_zero.mp hl)
      subst hnil
      simp [nms_loop]
  | succ n ih =>
      intro l hl
      cases l with
      | nil => simp [nms_loop]
      | cons c rest =>
          have hlen : (rest.filter fun d =>
              decide (calculate_iou c.bbox d.bbox < thr)).length ≤ n :=
            le_trans (List.length_filter_le _ _)
              (Nat.succ_le_succ_iff.mp (by simpa using hl))
          simp only [nms_loop]
          refine List.Pairwise.cons (fun b hb => ?_) (ih _ hlen)
          have hbf := mem_nms_loop thr n _ hlen b hb
          exact of_decide_eq_true (List.mem_filter.mp hbf).2

/-- The IoU of `calculate_iou` is symmetric in its two boxes. -/
theorem calculate_iou_comm (b1 b2 : ℤ × ℤ × ℤ × ℤ) :
    calculate_iou b1 b2 = calculate_iou b2 b1 := by
  have h1 : inter_xmin b1 b2 = inter_xmin b2 b1 := max_comm _ _
  have h2 : inter_ymin b1 b2 = inter_ymin b2 b1 := max_comm _ _
  have h3 : inter_xmax b1 b2 = inter_xmax b2 b1 := min_comm _ _
  have h4 : inter_ymax b1 b2 = inter_ymax b2 b1 := min_comm _ _
  have h5 : inter_area b1 b2 = inter_area b2 b1 := by
    rw [inter_area, inter_area, h1, h2, h3, h4]
  have h6 : union_area b1 b2 = union_area b2 b1 := by
    rw [union_area, union_area, h5]
    ring
  simp only [calculate_iou, h1, h2, h3, h4, h5, h6]

/-- On two disjoint boxes, NMS keeps both, higher confidence first. -/
theorem apply_nms_pair : apply_nms (9/20) [c3_det1, c3_det2] = [c3_det1, c3_det2] := by
  norm_num [apply_nms, sort_by_conf, insert_by_conf, nms_loop, c3_det1, c3_det2,
    calculate_iou, inter_xmax, inter_xmin, inter_ymax, inter_ymin, union_area, box_area,
    inter_area]

/-- Length evaluation for the C3 witness input. -/
theorem apply_nms_pair_length : (apply_nms (9/20) [c3_det1, c3_det2]).length = 2 := by
  rw [apply_nms_pair]
  rfl

/-- The clip inside `sigmoid` is the identity on `[-500, 500]`. -/
theorem sigmoid_eq_of_mem_clip {x : ℝ} (h1 : -500 ≤ x) (h2 : x ≤ 500) :
    sigmoid x = 1 / (1 + Real.exp (-x)) := by
  rw [sigmoid, min_eq_left h2, max_eq_right h1]

/-- The denominator of the logistic function is positive. -/
theorem one_add_exp_pos (y : ℝ) : 0 < 1 + Real.exp y := by positivity

/-- The logistic activation is positive. -/
theorem sigmoid_pos (x : ℝ) : 0 < sigmoid x := by
  rw [sigmoid]
  positivity

/-- The logistic activation is below one. -/
theorem sigmoid_lt_one (x : ℝ) : sigmoid x < 1 := by
  rw [sigmoid, div_lt_one (one_add_exp_pos _)]
  linarith [Real.exp_pos (-(max (-500) (min x 500)))]

/-- The logistic activation exceeds one half on positive arguments inside
the clip range. -/
theorem half_lt_sigmoid {x : ℝ} (h0 : 0 < x) (h1 : x ≤ 500) : 1/2 < sigmoid x := by
  rw [sigmoid_eq_of_mem_clip (by linarith) h1]
  have hlt : Real.exp (-x) < 1 := by
    calc Real.exp (-x) < Real.exp 0 := Real.exp_lt_exp.mpr (by linarith)
    _ = 1 := Real.exp_zero
  have h2 : (0:ℝ) < 1 + Real.exp (-x) := one_add_exp_pos _
  rw [lt_div_iff₀ h2]
  linarith

/-- The logistic activation is below one half on negative arguments inside
the clip range. -/
theorem sigmoid_lt_half {x : ℝ} (h0 : -500 ≤ x) (h1 : x < 0) : sigmoid x < 1/2 := by
  rw [sigmoid_eq_of_mem_clip h0 (by linarith)]
  have hgt : 1 < Real.exp (-x) := by
    calc (1:ℝ) = Real.exp 0 := Real.exp_zero.symm
    _ < Real.exp (-x) := Real.exp_lt_exp.mpr (by linarith)
  have h2 : (0:ℝ) < 1 + Real.exp (-x) := one_add_exp_pos _
  rw [div_lt_iff₀ h2]
  linarith

/-- The logistic activation is strictly monotone inside the clip range. -/
theorem sigmoid_lt_sigmoid {a b : ℝ} (h1 : -500 ≤ a) (h2 : b ≤ 500) (hab : a < b) :
    sigmoid a < sigmoid b := by
  rw [sigmoid_eq_of_mem_clip h1 (le_trans hab.le h2),
    sigmoid_eq_of_mem_clip (le_trans h1 hab.le) h2]
  have hexp : Real.exp (-b) < Real.exp (-a) := Real.exp_lt_exp.mpr (by linarith)
  exact one_div_lt_one_div_of_lt (one_add_exp_pos _) (by linarith)

/-- An upper bound for the logistic activation on `[0, 1]`, from the
decimal bound on `e`: `sigmoid x <= 1/(1 + 1/e) < 0.74`. -/
theorem sigmoid_lt_of_le_one {x : ℝ} (h0 : -500 ≤ x) (h1 : x ≤ 1) : sigmoid x < 37/50 := by
  rw [sigmoid_eq_of_mem_clip h0 (by linarith)]
  have he1 : Real.exp 1 < 2.7182818286 := Real.exp_one_lt_d9
  have hprod : Real.exp (-1) * Real.exp 1 = 1 := by
    rw [← Real.exp_add]
    norm_num
  have hinv : (3678/10000 : ℝ) < Real.exp (-1) := by
    nlinarith [Real.exp_pos (-1), Real.exp_pos 1]
  have hxe : Real.exp (-1) ≤ Real.exp (-x) := Real.exp_le_exp.mpr (by linarith)
  calc 1 / (1 + Real.exp (-x)) < 1 / (1 + 3678/10000) :=
        one_div_lt_one_div_of_lt (by norm_num) (by linarith)
  _ < 37/50 := by norm_num

/-- First-maximum index of a two-element vector. -/
theorem np_argmax_pair (a b : ℝ) : np_argmax [a, b] = if b > a then 1 else 0 := by
  simp [np_argmax]

/-- Truncation of a nonnegative integer literal viewed as a real. -/
theorem pytrunc_intCast (n : ℤ) (hn : 0 ≤ n) : pytrunc (n : ℝ) = n := by
  rw [pytrunc, if_pos (by exact_mod_cast hn), Int.floor_intCast]

/-- Truncation of the scenario box edges. -/
theorem pytrunc_270 : pytrunc (270:ℝ) = 270 := by
  rw [show (270:ℝ) = ((270:ℤ):ℝ) by norm_num]
  exact pytrunc_intCast 270 (by norm_num)

/-- Truncation of the scenario box edges. -/
theorem pytrunc_370 : pytrunc (370:ℝ) = 370 := by
  rw [show (370:ℝ) = ((370:ℤ):ℝ) by norm_num]
  exact pytrunc_intCast 370 (by norm_num)

/-- Truncation of a nonnegative integer literal viewed as a rational. -/
theorem pytruncQ_intCast (n : ℤ) (hn : 0 ≤ n) : pytruncQ (n : ℚ) = n := by
  rw [pytruncQ, if_pos (by exact_mod_cast hn), Int.floor_intCast]

/-- Clamping and rescaling of the scenario box edges. -/
theorem scale_270 : scale_coord (clamp640 270) 640 = 270 := by
  have h1 : clamp640 270 = 270 := by rw [clamp640]; omega
  rw [h1, scale_coord]
  have h2 : ((270:ℤ):ℚ) * ((640:ℤ):ℚ) / 640 = ((270:ℤ):ℚ) := by push_cast; norm_num
  rw [h2]
  exact pytruncQ_intCast 270 (by norm_num)

/-- Clamping and rescaling of the scenario box edges. -/
theorem scale_370 : scale_coord (clamp640 370) 640 = 370 := by
  have h1 : clamp640 370 = 370 := by rw [clamp640]; omega
  rw [h1, scale_coord]
  have h2 : ((370:ℤ):ℚ) * ((640:ℤ):ℚ) / 640 = ((370:ℤ):ℚ) := by push_cast; norm_num
  rw [h2]
  exact pytruncQ_intCast 370 (by norm_num)

/-- Rational bracketing of `exp(0.9)` from `(1 + 0.9/16)^16 ≤ exp(0.9)`
and `exp(0.9) ≤ exp(1)/exp(0.1) < 2.7182818286/1.1`. -/
theorem exp_09_bounds :
    24003/10000 < Real.exp (9/10:ℝ) ∧ Real.exp (9/10:ℝ) < 24712/10000 := by
  constructor
  · have h2 : (9/160:ℝ) + 1 ≤ Real.exp (9/160) := by
      have := Real.add_one_le_exp (9/160:ℝ)
      linarith
    have hpow : ((169:ℝ)/160)^(16:ℕ) ≤ Real.exp (9/10) := by
      calc ((169:ℝ)/160)^(16:ℕ)
          ≤ (Real.exp (9/160))^(16:ℕ) := pow_le_pow_left₀ (by norm_num) (by linarith) 16
        _ = Real.exp (16 * (9/160)) := (Real.exp_nat_mul _ 16).symm
        _ = Real.exp (9/10) := by norm_num
    calc (24003/10000:ℝ) < ((169:ℝ)/160)^(16:ℕ) := by norm_num
      _ ≤ Real.exp (9/10) := hpow
  · have hsplit : Real.exp (9/10:ℝ) * Real.exp (1/10:ℝ) = Real.exp 1 := by
      rw [← Real.exp_add]
      norm_num
    have h01 : (11/10:ℝ) ≤ Real.exp (1/10) := by
      have := Real.add_one_le_exp (1/10:ℝ)
      linarith
    have he1 : Real.exp 1 < 2.7182818286 := Real.exp_one_lt_d9
    nlinarith [Real.exp_pos (9/10:ℝ), Real.exp_pos (1/10:ℝ)]

/-- Rational bracketing of `exp(0.8)` from `(1 + 0.8/16)^16 ≤ exp(0.8)`
and `exp(0.8) ≤ exp(1)/exp(0.2) < 2.7182818286/1.2`. -/
theorem exp_08_bounds :
    21828/10000 < Real.exp (4/5:ℝ) ∧ Real.exp (4/5:ℝ) < 22653/10000 := by
  constructor
  · have h2 : (1/20:ℝ) + 1 ≤ Real.exp (1/20) := by
      have := Real.add_one_le_exp (1/20:ℝ)
      linarith
    have hpow : ((21:ℝ)/20)^(16:ℕ) ≤ Real.exp (4/5) := by
      calc ((21:ℝ)/20)^(16:ℕ)
          ≤ (Real.exp (1/20))^(16:ℕ) := pow_le_pow_left₀ (by norm_num) (by linarith) 16
        _ = Real.exp (16 * (1/20)) := (Real.exp_nat_mul _ 16).symm
        _ = Real.exp (4/5) := by norm_num
    calc (21828/10000:ℝ) < ((21:ℝ)/20)^(16:ℕ) := by norm_num
      _ ≤ Real.exp (4/5) := hpow
  · have hsplit : Real.exp (4/5:ℝ) * Real.exp (1/5:ℝ) = Real.exp 1 := by
      rw [← Real.exp_add]
      norm_num
    have h02 : (12/10:ℝ) ≤ Real.exp (1/5) := by
      have := Real.add_one_le_exp (1/5:ℝ)
      linarith
    have he1 : Real.exp 1 < 2.7182818286 := Real.exp_one_lt_d9
    nlinarith [Real.exp_pos (4/5:ℝ), Real.exp_pos (1/5:ℝ)]

/-- Rational bracketing of `sigmoid(0.9)`: it is about 0.7109. -/
theorem sigmoid_09_bounds :
    7058/10000 < sigmoid (9/10:ℝ) ∧ sigmoid (9/10:ℝ) < 7121/10000 := by
  have hmul : Real.exp (-(9/10:ℝ)) * Real.exp (9/10:ℝ) = 1 := by
    rw [← Real.exp_add]
    norm_num
  have hEpos := Real.exp_pos (-(9/10:ℝ))
  have hEup : Real.exp (-(9/10:ℝ)) < 41662/100000 := by
    nlinarith [exp_09_bounds.1]
  have hElo : (40466/100000:ℝ) < Real.exp (-(9/10:ℝ)) := by
    nlinarith [exp_09_bounds.2, Real.exp_pos (9/10:ℝ)]
  rw [sigmoid_eq_of_mem_clip (by norm_num) (by norm_num)]
  constructor
  · rw [lt_div_iff₀ (by positivity)]
    linarith
  · rw [div_lt_iff₀ (by positivity)]
    linarith

/-- Rational bracketing of `sigmoid(0.8)`: it is about 0.6900. -/
theorem sigmoid_08_bounds :
    6857/10000 < sigmoid (4/5:ℝ) ∧ sigmoid (4/5:ℝ) < 6938/10000 := by
  have hmul : Real.exp (-(4/5:ℝ)) * Real.exp (4/5:ℝ) = 1 := by
    rw [← Real.exp_add]
    norm_num
  have hEpos := Real.exp_pos (-(4/5:ℝ))
  have hEup : Real.exp (-(4/5:ℝ)) < 45813/100000 := by
    nlinarith [exp_08_bounds.1]
  have hElo : (44144/100000:ℝ) < Real.exp (-(4/5:ℝ)) := by
    nlinarith [exp_08_bounds.2, Real.exp_pos (4/5:ℝ)]
  rw [sigmoid_eq_of_mem_clip (by norm_num) (by norm_num)]
  constructor
  · rw [lt_div_iff₀ (by positivity)]
    linarith
  · rw [div_lt_iff₀ (by positivity)]
    linarith

/-- The combined confidence of the scenario detection is below 0.55 (in
fact close to 0.49), far from the claimed 0.72. -/
theorem scenario_confidence_lt : sigmoid (9/10) * sigmoid (4/5) < 11/20 := by
  have b9 : sigmoid (9/10) < 37/50 := sigmoid_lt_of_le_one (by norm_num) (by norm_num)
  have b8 : sigmoid (4/5) < 37/50 := sigmoid_lt_of_le_one (by norm_num) (by norm_num)
  nlinarith [sigmoid_pos (9/10), sigmoid_pos (4/5)]

/-- The combined confidence of the scenario detection lies in
(0.48, 0.50): it is about 0.4906, far from the claimed 0.72. -/
theorem scenario_confidence_bounds :
    12/25 < sigmoid (9/10:ℝ) * sigmoid (4/5:ℝ) ∧
      sigmoid (9/10:ℝ) * sigmoid (4/5:ℝ) < 1/2 := by
  obtain ⟨l9, u9⟩ := sigmoid_09_bounds
  obtain ⟨l8, u8⟩ := sigmoid_08_bounds
  constructor
  · nlinarith [sigmoid_pos (9/10:ℝ), sigmoid_pos (4/5:ℝ)]
  · nlinarith [sigmoid_pos (9/10:ℝ), sigmoid_pos (4/5:ℝ)]

/-- Evaluation of the per-anchor decoding on the C5 scenario anchor. -/
theorem anchor_detection_scenario :
    anchor_detection (1/4) ["norway_rat", "roof_rat"] 2 640 640 scenario_anchor =
      some scenario_det := by
  have hmono : sigmoid (1/10) < sigmoid (4/5) :=
    sigmoid_lt_sigmoid (by norm_num) (by norm_num) (by norm_num)
  have h8 : (1:ℝ)/2 < sigmoid (4/5) := half_lt_sigmoid (by norm_num) (by norm_num)
  have h9 : (1:ℝ)/2 < sigmoid (9/10) := half_lt_sigmoid (by norm_num) (by norm_num)
  have hconf : (1:ℝ)/4 < sigmoid (9/10) * sigmoid (4/5) := by nlinarith
  have hargmax : np_argmax [sigmoid (4/5), sigmoid (1/10)] = 0 := by
    rw [np_argmax_pair, if_neg (not_lt.mpr hmono.le)]
  simp only [anchor_detection, selected_class_id, selected_class_prob, scenario_anchor,
    class_scores_col, stacked_nc]
  norm_num [hargmax, hconf, pytrunc_270, pytrunc_370, scale_270, scale_370,
    class_name_of, scenario_det]

/-- Evaluation of the full decoder on the C5 scenario tensor. -/
theorem decode_scenario :
    decode_output (1/4) (9/20) ["norway_rat", "roof_rat"] scenario_out 640 640 =
      [scenario_det] := by
  have h9 : (1:ℝ)/4 < sigmoid (9/10) :=
    lt_trans (by norm_num) (half_lt_sigmoid (by norm_num) (by norm_num))
  have hp : (decide ((1:ℝ)/4 < sigmoid scenario_anchor.obj)) = true :=
    decide_eq_true (by simpa [scenario_anchor] using h9)
  simp only [decode_output, scenario_out, List.filter_cons, hp, if_true, List.filter_nil,
    List.filterMap_cons, anchor_detection_scenario, List.filterMap_nil, List.length_cons,
    List.length_nil]
  norm_num

/-- Evaluation of the per-anchor decoding on the C6 binary anchor. -/
theorem anchor_detection_binary :
    anchor_detection (1/4) ["norway_rat", "roof_rat"] 1 640 640 binary_anchor =
      some binary_det := by
  have hs : sigmoid (-1) < 1/2 := sigmoid_lt_half (by norm_num) (by norm_num)
  have h2 : (1:ℝ)/2 < sigmoid 2 := half_lt_sigmoid (by norm_num) (by norm_num)
  have hconf : (1:ℝ)/4 < sigmoid 2 * (1 - sigmoid (-1)) := by nlinarith
  have hargmax : np_argmax [1 - sigmoid (-1), sigmoid (-1)] = 0 := by
    rw [np_argmax_pair, if_neg (by push_neg; linarith)]
  simp only [anchor_detection, selected_class_id, selected_class_prob, binary_anchor,
    class_scores_col, stacked_nc]
  norm_num [hargmax, hconf, pytrunc_270, pytrunc_370, scale_270, scale_370,
    class_name_of, binary_det]

/-- Evaluation of the full decoder on the C6 binary tensor. -/
theorem decode_binary :
    decode_output (1/4) (9/20) ["norway_rat", "roof_rat"] binary_out 640 640 =
      [binary_det] := by
  have h2 : (1:ℝ)/4 < sigmoid 2 :=
    lt_trans (by norm_num) (half_lt_sigmoid (by norm_num) (by norm_num))
  have hp : (decide ((1:ℝ)/4 < sigmoid binary_anchor.obj)) = true :=
    decide_eq_true (by simpa [binary_anchor] using h2)
  simp only [decode_output, binary_out, List.filter_cons, hp, if_true, List.filter_nil,
    List.filterMap_cons, anchor_detection_binary, List.filterMap_nil, List.length_cons,
    List.length_nil]
  norm_num

/-- Every decoder output originates from an anchor of the input tensor on
which the per-anchor decoding succeeded. -/
theorem mem_decode_output {ct : ℝ} {it : ℚ} {names : List String} {out : RawOutput}
    {wo ho : ℤ} {d : PyDetection} (hd : d ∈ decode_output ct it names out wo ho) :
    ∃ a ∈ out.anchors, anchor_detection ct names out.nc wo ho a = some d := by
  simp only [decode_output] at hd
  by_cases h : 1 < ((out.anchors.filter fun a => decide (ct < sigmoid a.obj)).filterMap
      (anchor_detection ct names out.nc wo ho)).length
  · rw [if_pos h, apply_nms] at hd
    have hmem := mem_sort_by_conf (mem_nms_loop it _ _ le_rfl d hd)
    obtain ⟨a, ha, hsome⟩ := List.mem_filterMap.mp hmem
    exact ⟨a, List.mem_of_mem_filter ha, hsome⟩
  · rw [if_neg h] at hd
    obtain ⟨a, ha, hsome⟩ := List.mem_filterMap.mp hd
    exact ⟨a, List.mem_of_mem_filter ha, hsome⟩

/-- An emitted per-anchor detection passed the strict combined-confidence
test, and its fields are the activated objectness, the selected class
probability, their product, and the selected class name. -/
theorem anchor_detection_confidence {ct : ℝ} {names : List String} {nc : ℕ} {wo ho : ℤ}
    {a : RawAnchor} {d : PyDetection}
    (h : anchor_detection ct names nc wo ho a = some d) :
    ct < d.confidence ∧ d.obj_conf = sigmoid a.obj ∧
      d.confidence = sigmoid a.obj * d.class_prob ∧
      d.class_prob = selected_class_prob nc a ∧
      d.cls = class_name_of names (selected_class_id nc a) := by
  simp only [anchor_detection] at h
  split at h
  · split at h
    · injection h with h'
      subst h'
      exact ⟨by assumption, rfl, rfl, rfl, rfl⟩
    · exact absurd h (by simp)
  · exact absurd h (by simp)

/-! Claim theorems, witnesses and counterexamples. -/

/-- C1: `process_detection` returns an `AlertEvent` exactly when
`now - last_alert_times[class]` has reached the cooldown window; on
success it sets the class's last-alert time to `now`, on `None` it leaves
the cooldown map unchanged, every other class's entry is unchanged in both
cases, and a never-alerted class (entry still `datetime.min`) is eligible
whenever the window has passed since `datetime.min`. -/
theorem C1_cooldown_gate (st : SysState) (d : Detection) (img : String) (now : ℚ) :
    ((process_detection st d img now).1.isSome ↔
      st.cooldown_minutes ≤ now - st.last_alert_times d.class_name) ∧
    ((process_detection st d img now).1.isSome →
      (process_detection st d img now).2.last_alert_times d.class_name = now) ∧
    ((process_detection st d img now).1 = none →
      (process_detection st d img now).2.last_alert_times = st.last_alert_times) ∧
    (∀ c, c ≠ d.class_name →
      (process_detection st d img now).2.last_alert_times c = st.last_alert_times c) ∧
    (st.last_alert_times d.class_name = datetime_min →
      datetime_min + st.cooldown_minutes ≤ now →
      (process_detection st d img now).1.isSome) := by
  by_cases h : st.cooldown_minutes ≤ now - st.last_alert_times d.class_name
  · have hb : should_send_alert st d now = true := by simp [should_send_alert, h]
    refine ⟨by simp [process_detection, hb, h], fun _ => by simp [process_detection, hb],
      fun hnone => ?_, fun c hc => by simp [process_detection, hb, hc],
      fun _ _ => by simp [process_detection, hb]⟩
    simp [process_detection, hb] at hnone
  · have hb : should_send_alert st d now = false := by simp [should_send_alert, h]
    refine ⟨by simp [process_detection, hb, h], fun hs => ?_, fun _ => by simp [process_detection, hb],
      fun c _ => by simp [process_detection, hb], fun h1 h2 => ?_⟩
    · simp [process_detection, hb] at hs
    · exact absurd (show st.cooldown_minutes ≤ now - st.last_alert_times d.class_name by
        rw [h1]; linarith) h

/-- Witness for C1 at a concrete eligible state: the initial state with a
norway rat detection at time 100 produces an alert. -/
theorem C1_cooldown_gate_witness :
    (process_detection init_state ⟨"norway_rat", 9/10, (0, 0, 10, 10), 100⟩ "img" 100).1.isSome :=
  (C1_cooldown_gate init_state ⟨"norway_rat", 9/10, (0, 0, 10, 10), 100⟩ "img" 100).2.2.2.2
    rfl (by norm_num [datetime_min, init_state])

/-- C2: with two enabled channels of which exactly one fails (by returning
failure or by raising), `send_alert` still produces one entry per channel,
`false` for the failing one and `true` for the succeeding one, and the
orchestrator marks the event sent because at least one entry is true. -/
theorem C2_partial_failure (st : SysState) (i : ℕ) (now : ℚ) (n1 n2 : String)
    (r1 r2 : PyResult Bool) (h : channel_ok r1 ≠ channel_ok r2) :
    service_send_alert [(n1, r1), (n2, r2)] = [(n1, channel_ok r1), (n2, channel_ok r2)] ∧
    ((service_send_alert [(n1, r1), (n2, r2)]).map Prod.snd).count true = 1 ∧
    ((service_send_alert [(n1, r1), (n2, r2)]).map Prod.snd).count false = 1 ∧
    (main_send_alert st i [(n1, r1), (n2, r2)] now).1.mark_count i = st.mark_count i + 1 := by
  have hid := detection_hasattr_id
  refine ⟨rfl, ?_, ?_, ?_⟩ <;>
    rcases hb1 : channel_ok r1 <;> rcases hb2 : channel_ok r2 <;>
      simp_all [service_send_alert, main_send_alert, mark_alert_sent]

/-- Witness for C2: an SMS success together with a raising email channel. -/
theorem C2_partial_failure_witness :
    channel_ok (PyResult.ok true) ≠ channel_ok (PyResult.exn "SMTP error") ∧
    ((service_send_alert [("sms", PyResult.ok true), ("email", PyResult.exn "SMTP error")]).map
        Prod.snd).count true = 1 ∧
    (main_send_alert init_state 0 [("sms", PyResult.ok true), ("email", PyResult.exn "SMTP error")]
        5).1.mark_count 0 = init_state.mark_count 0 + 1 :=
  ⟨by decide,
    (C2_partial_failure init_state 0 5 "sms" "email" (PyResult.ok true)
        (PyResult.exn "SMTP error") (by decide)).2.1,
    (C2_partial_failure init_state 0 5 "sms" "email" (PyResult.ok true)
        (PyResult.exn "SMTP error") (by decide)).2.2.2⟩

/-- C3: any two distinct detections kept by `apply_nms` have IoU strictly
below `iou_threshold`, and `calculate_iou` returns 0 whenever the boxes do
not overlap or the union area is not positive (it is intersection over
union of the axis-aligned rectangles otherwise). -/
theorem C3_nms_pairwise_iou (iou_threshold : ℚ) (dets : List PyDetection) :
    (∀ i j (hi : i < (apply_nms iou_threshold dets).length)
        (hj : j < (apply_nms iou_threshold dets).length), i ≠ j →
      calculate_iou ((apply_nms iou_threshold dets).get ⟨i, hi⟩).bbox
        ((apply_nms iou_threshold dets).get ⟨j, hj⟩).bbox < iou_threshold) ∧
    (∀ b1 b2 : ℤ × ℤ × ℤ × ℤ,
      (inter_xmax b1 b2 ≤ inter_xmin b1 b2 ∨ inter_ymax b1 b2 ≤ inter_ymin b1 b2) ∨
        union_area b1 b2 ≤ 0 →
      calculate_iou b1 b2 = 0) := by
  constructor
  · have hp : (apply_nms iou_threshold dets).Pairwise
        (fun a b => calculate_iou a.bbox b.bbox < iou_threshold) :=
      nms_loop_pairwise iou_threshold (sort_by_conf dets).length _ le_rfl
    intro i j hi hj hij
    rcases lt_trichotomy i j with hlt | heq | hgt
    · exact List.pairwise_iff_get.mp hp ⟨i, hi⟩ ⟨j, hj⟩ hlt
    · exact absurd heq hij
    · rw [calculate_iou_comm]
      exact List.pairwise_iff_get.mp hp ⟨j, hj⟩ ⟨i, hi⟩ hgt
  · intro b1 b2 h
    rcases h with h | h
    · rw [calculate_iou, if_pos h]
    · by_cases h1 : inter_xmax b1 b2 ≤ inter_xmin b1 b2 ∨ inter_ymax b1 b2 ≤ inter_ymin b1 b2
      · rw [calculate_iou, if_pos h1]
      · rw [calculate_iou, if_neg h1, if_neg (by omega : ¬0 < union_area b1 b2)]

/-- Witness for C3 on two concrete non-overlapping kept detections. -/
theorem C3_nms_pairwise_iou_witness :
    calculate_iou
        ((apply_nms (9/20) [c3_det1, c3_det2]).get
          ⟨0, by rw [apply_nms_pair_length]; norm_num⟩).bbox
        ((apply_nms (9/20) [c3_det1, c3_det2]).get
          ⟨1, by rw [apply_nms_pair_length]; norm_num⟩).bbox < 9/20 :=
  (C3_nms_pairwise_iou (9/20) [c3_det1, c3_det2]).1 0 1 _ _ (by norm_num)

/-- C4: for every confidence threshold in (0, 1], every raw tensor and
every frame size, no detection emitted by the decoder has combined
confidence below the threshold. -/
theorem C4_confidence_threshold (ct : ℝ) (_h0 : 0 < ct) (_h1 : ct ≤ 1) (it : ℚ)
    (names : List String) (out : RawOutput) (wo ho : ℤ) (d : PyDetection)
    (hd : d ∈ decode_output ct it names out wo ho) :
    ¬ d.confidence < ct := by
  obtain ⟨a, -, hsome⟩ := mem_decode_output hd
  exact not_lt.mpr (anchor_detection_confidence hsome).1.le

/-- Witness for C4 on the concrete scenario tensor at threshold 1/4. -/
theorem C4_confidence_threshold_witness :
    (0:ℝ) < 1/4 ∧ (1/4:ℝ) ≤ 1 ∧
    scenario_det ∈ decode_output (1/4) (9/20) ["norway_rat", "roof_rat"] scenario_out 640 640 ∧
    ¬ scenario_det.confidence < 1/4 :=
  ⟨by norm_num, by norm_num, by rw [decode_scenario]; exact List.mem_singleton.mpr rfl,
    C4_confidence_threshold (1/4) (by norm_num) (by norm_num) (9/20) ["norway_rat", "roof_rat"]
      scenario_out 640 640 scenario_det
      (by rw [decode_scenario]; exact List.mem_singleton.mpr rfl)⟩

/-- C5 counterexample: on the scenario tensor (single anchor, objectness
0.9 taken as post-sigmoid, class scores [0.8, 0.1], threshold 0.25) the
decoder returns one detection whose confidence is below 0.55, so it is not
approximately 0.72 and not 0.9 * 0.8: the script re-applies sigmoid to the
objectness and class scores unconditionally, with no configuration flag. -/
theorem C5_counterexample :
    decode_output (1/4) (9/20) ["norway_rat", "roof_rat"] scenario_out 640 640 =
      [scenario_det] ∧
    scenario_det.confidence < 11/20 ∧
    scenario_det.confidence ≠ 9/10 * (4/5 : ℝ) := by
  refine ⟨decode_scenario, scenario_confidence_lt, fun h => ?_⟩
  have h' : sigmoid (9/10) * sigmoid (4/5) = 9/10 * (4/5 : ℝ) := h
  have := scenario_confidence_lt
  rw [h'] at this
  norm_num at this

/-- C5 amended: on the scenario tensor the decoder does return exactly one
detection of class index 0, but its confidence is
`sigmoid(0.9) * sigmoid(0.8)` (strictly between 0.48 and 0.50, around
0.49), not 0.72, because `decode_output` applies sigmoid to the objectness and
class-score channels unconditionally; no deployment-time activation flag
exists in the script. -/
theorem C5_amended_unconditional_sigmoid :
    decode_output (1/4) (9/20) ["norway_rat", "roof_rat"] scenario_out 640 640 =
      [scenario_det] ∧
    scenario_det.cls = "norway_rat" ∧
    scenario_det.confidence = sigmoid (9/10) * sigmoid (4/5) ∧
    12/25 < scenario_det.confidence ∧ scenario_det.confidence < 1/2 :=
  ⟨decode_scenario, rfl, rfl, scenario_confidence_bounds.1, scenario_confidence_bounds.2⟩

/-- C6 counterexample: on the binary tensor with raw score -1 the decoder
emits the negative class (index 0), not the positive class, and its
confidence is objectness times `1 - sigmoid(-1)`, not objectness times
`sigmoid(-1)`. -/
theorem C6_counterexample :
    decode_output (1/4) (9/20) ["norway_rat", "roof_rat"] binary_out 640 640 = [binary_det] ∧
    binary_det.cls ≠ class_name_of ["norway_rat", "roof_rat"] 1 ∧
    binary_det.confidence ≠
      sigmoid binary_anchor.obj * sigmoid (binary_anchor.scores.getD 0 0) := by
  refine ⟨decode_binary, ?_, ?_⟩
  · have hname : class_name_of ["norway_rat", "roof_rat"] 1 = "roof_rat" := by
      simp [class_name_of]
    rw [hname]
    intro h
    exact absurd h (by decide)
  · intro h
    have h' : sigmoid 2 * (1 - sigmoid (-1)) = sigmoid 2 * sigmoid (-1) := h
    have hs : sigmoid (-1) < 1/2 := sigmoid_lt_half (by norm_num) (by norm_num)
    have h2 : (0:ℝ) < sigmoid 2 := sigmoid_pos 2
    have hc := mul_left_cancel₀ (ne_of_gt h2) h'
    linarith

/-- C6 amended: on a tensor with a single class-score channel the decoder
does derive the pair `[1 - sigmoid(s), sigmoid(s)]`, but each emitted
detection then reports the argmax of that pair: the positive class (index
1) with probability `sigmoid(s)` only when `sigmoid(s)` exceeds
`1 - sigmoid(s)`, otherwise the negative class (index 0) with probability
`1 - sigmoid(s)`; the combined confidence is the activated objectness
times the selected probability. -/
theorem C6_binary_argmax (ct : ℝ) (it : ℚ) (names : List String) (out : RawOutput)
    (wo ho : ℤ) (hnc : out.nc = 1) (d : PyDetection)
    (hd : d ∈ decode_output ct it names out wo ho) :
    ∃ a ∈ out.anchors,
      d.obj_conf = sigmoid a.obj ∧
      d.confidence = sigmoid a.obj * d.class_prob ∧
      ((1 - sigmoid (a.scores.getD 0 0) < sigmoid (a.scores.getD 0 0) ∧
          d.class_prob = sigmoid (a.scores.getD 0 0) ∧ d.cls = class_name_of names 1) ∨
        (sigmoid (a.scores.getD 0 0) ≤ 1 - sigmoid (a.scores.getD 0 0) ∧
          d.class_prob = 1 - sigmoid (a.scores.getD 0 0) ∧
          d.cls = class_name_of names 0)) := by
  obtain ⟨a, ha, hsome⟩ := mem_decode_output hd
  rw [hnc] at hsome
  obtain ⟨-, hobj, hconf, hprob, hcls⟩ := anchor_detection_confidence hsome
  refine ⟨a, ha, hobj, by rw [hconf], ?_⟩
  have hcol : class_scores_col 1 a =
      [1 - sigmoid (a.scores.getD 0 0), sigmoid (a.scores.getD 0 0)] := by
    simp [class_scores_col]
  have hid : selected_class_id 1 a =
      if 1 - sigmoid (a.scores.getD 0 0) < sigmoid (a.scores.getD 0 0) then 1 else 0 := by
    rw [selected_class_id, stacked_nc]
    norm_num [hcol, np_argmax_pair]
  by_cases hgt : 1 - sigmoid (a.scores.getD 0 0) < sigmoid (a.scores.getD 0 0)
  · left
    refine ⟨hgt, ?_, ?_⟩
    · rw [hprob, selected_class_prob, hid, if_pos hgt, hcol]
      rfl
    · rw [hcls, hid, if_pos hgt]
  · right
    refine ⟨not_lt.mp hgt, ?_, ?_⟩
    · rw [hprob, selected_class_prob, hid, if_neg hgt, hcol]
      rfl
    · rw [hcls, hid, if_neg hgt]

/-- Witness for C6's amended theorem on the concrete binary tensor. -/
theorem C6_binary_argmax_witness :
    binary_out.nc = 1 ∧
    binary_det ∈ decode_output (1/4) (9/20) ["norway_rat", "roof_rat"] binary_out 640 640 ∧
    binary_det.obj_conf = sigmoid binary_anchor.obj := by
  refine ⟨rfl, by rw [decode_binary]; exact List.mem_singleton.mpr rfl, ?_⟩
  obtain ⟨a, ha, h1, -, -⟩ :=
    C6_binary_argmax (1/4) (9/20) ["norway_rat", "roof_rat"] binary_out 640 640 rfl binary_det
      (by rw [decode_binary]; exact List.mem_singleton.mpr rfl)
  have ha' : a = binary_anchor := by simpa [binary_out] using ha
  rw [← ha']
  exact h1

/-- C7 (code bug exhibit): `process_detection` both enqueues the new
`AlertEvent` and returns it, `process_frame` dispatches the returned event
immediately, and `alert_processor` later dequeues the same event and
dispatches it again, so with one succeeding SMS channel
`mark_alert_sent` runs twice on the same event: the ghost counter reaches
2, the event is appended to `alert_history` twice, and its
`alert_sent_at`, first set at time 100, is overwritten at time 101. -/
theorem C7_double_dispatch :
    (alert_processor_step
        (process_frame_detection init_state c7_detection "img.jpg"
          [("sms", PyResult.ok true)] 100).1
        [("sms", PyResult.ok true)] 101).1.mark_count 0 = 2 ∧
    (alert_processor_step
        (process_frame_detection init_state c7_detection "img.jpg"
          [("sms", PyResult.ok true)] 100).1
        [("sms", PyResult.ok true)] 101).1.alert_history = [0, 0] ∧
    (process_frame_detection init_state c7_detection "img.jpg"
        [("sms", PyResult.ok true)] 100).1.events.map (fun e => e.alert_sent_at) = [some 100] ∧
    (alert_processor_step
        (process_frame_detection init_state c7_detection "img.jpg"
          [("sms", PyResult.ok true)] 100).1
        [("sms", PyResult.ok true)] 101).1.events.map (fun e => e.alert_sent_at) = [some 101] := by
  have hid := detection_hasattr_id
  norm_num [alert_processor_step, process_frame_detection, main_send_alert, process_detection,
    should_send_alert, mark_alert_sent, get_pending_alert, init_state, c7_detection,
    save_detection, service_send_alert, channel_ok, set_event_sent, hid, datetime_min]

/-- C8 amended: `update_alert_status` only ever touches the
`alert_sent`/`alert_sent_at` pair of the first record matching the id —
every other field of every record is unchanged, `alert_sent` is never set
back to false — and `save_detection` leaves all existing records
untouched.  (The exactly-once part of the original claim fails: see the
counterexample.) -/
theorem C8_update_touches_only_alert_fields (db : List DetectionRecord) (i : ℕ) (now : ℚ) :
    (update_alert_status db i now).length = db.length ∧
    (∀ r ∈ update_alert_status db i now,
      ∃ r0 ∈ db, r0.id = r.id ∧ r0.class_name = r.class_name ∧ r0.confidence = r.confidence ∧
        r0.bbox_x1 = r.bbox_x1 ∧ r0.bbox_y1 = r.bbox_y1 ∧ r0.bbox_x2 = r.bbox_x2 ∧
        r0.bbox_y2 = r.bbox_y2 ∧ r0.timestamp = r.timestamp ∧
        r0.detection_datetime = r.detection_datetime ∧ r0.image_path = r.image_path ∧
        r0.created_at = r.created_at ∧
        ((r.alert_sent = r0.alert_sent ∧ r.alert_sent_at = r0.alert_sent_at) ∨
          (r.alert_sent = true ∧ r.alert_sent_at = some now)) ∧
        (r0.alert_sent = true → r.alert_sent = true)) ∧
    (∀ d img s t, (save_detection db d img s t).take db.length = db) := by
  refine ⟨?_, ?_, fun d img s t => ?_⟩
  · induction db with
    | nil => rfl
    | cons r t ih =>
        by_cases h : r.id = i <;> simp [update_alert_status, h, ih]
  · induction db with
    | nil => intro r hr; simp [update_alert_status] at hr
    | cons r t ih =>
        intro r' hr'
        by_cases h : r.id = i
        · rw [update_alert_status, if_pos h] at hr'
          rcases List.mem_cons.mp hr' with hr' | hr'
          · subst hr'
            exact ⟨r, List.mem_cons_self _ _, rfl, rfl, rfl, rfl, rfl, rfl, rfl, rfl, rfl,
              rfl, rfl, Or.inr ⟨rfl, rfl⟩, fun _ => rfl⟩
          · exact ⟨r', List.mem_cons_of_mem _ hr', rfl, rfl, rfl, rfl, rfl, rfl, rfl, rfl,
              rfl, rfl, rfl, Or.inl ⟨rfl, rfl⟩, fun hh => hh⟩
        · rw [update_alert_status, if_neg h] at hr'
          rcases List.mem_cons.mp hr' with hr' | hr'
          · subst hr'
            exact ⟨r', List.mem_cons_self _ _, rfl, rfl, rfl, rfl, rfl, rfl, rfl, rfl, rfl,
              rfl, rfl, Or.inl ⟨rfl, rfl⟩, fun hh => hh⟩
          · obtain ⟨r0, hr0, hfields⟩ := ih r' hr'
            exact ⟨r0, List.mem_cons_of_mem _ hr0, hfields⟩
  · simp [save_detection, List.take_left]

/-- Witness for C8's amended theorem at a concrete one-record database. -/
theorem C8_update_touches_only_alert_fields_witness :
    (update_alert_status [c8_unsent_record] 1 60).length = 1 :=
  (C8_update_touches_only_alert_fields [c8_unsent_record] 1 60).1

/-- C8 counterexample: calling `update_alert_status` on a record whose
`alert_sent_at` is already set overwrites the stored timestamp (60 becomes
90), so the pair does not transition exactly once. -/
theorem C8_counterexample :
    c8_record.alert_sent_at = some 60 ∧
    (update_alert_status [c8_record] 1 90).map (fun r => r.alert_sent_at) = [some 90] ∧
    (some (60 : ℚ) : Option ℚ) ≠ some 90 := by decide

/-- C9 counterexample: when the model inference raises on a malformed
output tensor, `detect` returns the normal empty detection list instead of
propagating the error. -/
theorem C9_counterexample :
    detect (PyResult.exn "ValueError: malformed output tensor shape") 0 = PyResult.ok [] := rfl

/-- C9 amended: `detect` wraps its whole body in `try/except Exception`,
so any inference-time failure (malformed tensor shape included) is caught,
logged, and converted into a normal empty detection list; nothing is
propagated and nothing is retried. -/
theorem C9_detect_swallows_errors (m : String) (t : ℚ) :
    detect (PyResult.exn m) t = PyResult.ok [] := rfl

/-- C10: whenever at least one channel succeeded, the orchestrator's
`send_alert` marks the event sent and then evaluates
`alert_event.detection.id`; `Detection` has no `id` attribute, so the call
raises `AttributeError` after the mark, and `database.update_alert_status`
is never reached (the database and its ghost call counter are unchanged). -/
theorem C10_attribute_error (st : SysState) (i : ℕ) (channels : List (String × PyResult Bool))
    (now : ℚ) (h : (service_send_alert channels).any (fun r => r.2) = true) :
    detection_hasattr "id" = false ∧
    main_send_alert st i channels now =
      (mark_alert_sent st i now,
        PyResult.exn "AttributeError: Detection object has no attribute id") ∧
    (main_send_alert st i channels now).1.db = st.db ∧
    (main_send_alert st i channels now).1.db_update_count = st.db_update_count := by
  have hid := detection_hasattr_id
  refine ⟨hid, ?_, ?_, ?_⟩ <;> simp [main_send_alert, h, hid, mark_alert_sent]

/-- Witness for C10 with one succeeding SMS channel. -/
theorem C10_attribute_error_witness :
    (service_send_alert [("sms", PyResult.ok true)]).any (fun r => r.2) = true ∧
    main_send_alert init_state 0 [("sms", PyResult.ok true)] 5 =
      (mark_alert_sent init_state 0 5,
        PyResult.exn "AttributeError: Detection object has no attribute id") :=
  ⟨by decide,
    (C10_attribute_error init_state 0 [("sms", PyResult.ok true)] 5 (by decide)).2.1⟩
